import Mathlib

/-!
Shallow embedding of the LLM provider dispatcher implemented in
`src/project/src/services/llmService.js` (class `LLMService`).

The dispatcher selects one of two text-generation backends (Anthropic or
OpenAI) from a provider hint and a model-name heuristic, adapts the uniform
request to each backend's shape, and normalizes the responses.  Outbound
backend calls are modelled by oracle functions supplied in a `Backends`
record; each dispatcher operation additionally returns the list of backend
calls it made, so that "no network call" and "at most one call" properties
are expressible.  JavaScript `undefined`-vs-present option fields are
modelled with `Option`; JS string truthiness (empty string is falsy) is
modelled explicitly where the source relies on it.
-/

/-- A chat message, the shape used in both backends' `messages` arrays. -/
structure Message where
  role : String
  content : String
  deriving DecidableEq

/-- Usage statistics returned by a backend: a provider-defined mapping of
token counts, treated as an uninterpreted association list. -/
abbrev Usage := List (String × Nat)

/-- Errors observable from the dispatcher, mirroring the JS runtime:
`thrown` is a plain `new Error(msg)`, `referenceError` an unbound-identifier
failure, `typeError` a property access on `undefined`. -/
inductive JsError where
  | thrown (msg : String)
  | referenceError (name : String)
  | typeError (msg : String)
  deriving DecidableEq

/-- The `message` property of a JS error object. -/
def JsError.message : JsError → String
  | .thrown m => m
  | .referenceError n => n ++ " is not defined"
  | .typeError m => m

/-- Whether the needle occurs at the head of the haystack (character lists). -/
def headMatches : List Char → List Char → Bool
  | [], _ => true
  | _ :: _, [] => false
  | a :: as, b :: bs => a = b && headMatches as bs

/-- Whether the needle occurs anywhere in the haystack (character lists). -/
def hasSub (needle : List Char) : List Char → Bool
  | [] => headMatches needle []
  | c :: cs => headMatches needle (c :: cs) || hasSub needle cs

/-- Model of `String.prototype.includes` from JS: `jsIncludes s sub` is true
iff `sub` occurs as a contiguous substring of `s`. -/
def jsIncludes (s sub : String) : Bool :=
  hasSub sub.data s.data

/-- JS truthiness of a string-or-null value: null and the empty string are
falsy, every other string is truthy. -/
def jsTruthyStr : Option String → Bool
  | none => false
  | some s => s ≠ ""

/-- Request shape accepted by the Anthropic client
(`this.anthropic.messages.create`, llmService.js lines 70-76): the system
prompt travels as a top-level `system` field. -/
structure AnthropicReq where
  model : String
  maxTokens : Nat
  temperature : ℚ
  system : Option String
  messages : List Message
  deriving DecidableEq

/-- One content block of an Anthropic response (`response.content[0].text`). -/
structure ContentBlock where
  text : String
  deriving DecidableEq

/-- Anthropic response shape: `{content: [...], usage}`. -/
structure AnthropicResp where
  content : List ContentBlock
  usage : Usage
  deriving DecidableEq

/-- Request shape accepted by the OpenAI client
(`this.openai.chat.completions.create`, llmService.js lines 100-105): a
system prompt is expressed as a role-"system" message prepended to
`messages`. -/
structure OpenAIReq where
  model : String
  messages : List Message
  maxTokens : Nat
  temperature : ℚ
  deriving DecidableEq

/-- The `message` object inside one OpenAI choice. -/
structure ChoiceMessage where
  content : String
  deriving DecidableEq

/-- One element of `response.choices`. -/
structure Choice where
  message : ChoiceMessage
  deriving DecidableEq

/-- OpenAI response shape: `{choices: [...], usage}`. -/
structure OpenAIResp where
  choices : List Choice
  usage : Usage
  deriving DecidableEq

/-- A record of one outbound backend call, with the exact request sent. -/
inductive BackendCall where
  | anthropic (req : AnthropicReq)
  | openai (req : OpenAIReq)
  deriving DecidableEq

/-- Oracles standing for the two backend clients.  A call either returns a
response or raises a JS error (network failure, SDK exception, ...). -/
structure Backends where
  anthropicCall : AnthropicReq → Except JsError AnthropicResp
  openaiCall : OpenAIReq → Except JsError OpenAIResp

/-- Process environment as read in the `LLMService` constructor
(llmService.js lines 7-23): `none` models an unset variable. -/
structure Env where
  anthropicApiKey : Option String
  openaiApiKey : Option String
  defaultLlmModel : Option String

/-- State of a constructed `LLMService` instance: whether each client was
initialized (credential present and truthy) and the resolved process-wide
default model string. -/
structure ServiceState where
  anthropicEnabled : Bool
  openaiEnabled : Bool
  defaultModel : String
  deriving DecidableEq

/-- The `LLMService` constructor: a client exists iff its API key env var is
truthy; `defaultModel` is `DEFAULT_LLM_MODEL || 'claude-3-sonnet-20240229'`
(JS `||`, so an empty-string env value also falls back). -/
def LLMService.init (env : Env) : ServiceState where
  anthropicEnabled := jsTruthyStr env.anthropicApiKey
  openaiEnabled := jsTruthyStr env.openaiApiKey
  defaultModel :=
    match env.defaultLlmModel with
    | some s => if s = "" then "claude-3-sonnet-20240229" else s
    | none => "claude-3-sonnet-20240229"

/-- The options object accepted by the generation methods.  `none` models an
omitted (undefined) property, so destructuring defaults apply exactly to
`none` fields.  A `systemPrompt` of `none` covers both "omitted" and the
explicit `null` default, which the source treats identically. -/
structure GenOptions where
  model : Option String
  maxTokens : Option Nat
  temperature : Option ℚ
  systemPrompt : Option String
  provider : Option String
  deriving DecidableEq

/-- Resolved `model` in `generateResponseWithProvider`:
`model = this.defaultModel` destructuring default (line 27). -/
def resolvedModel (st : ServiceState) (opts : GenOptions) : String :=
  opts.model.getD st.defaultModel

/-- Resolved `maxTokens` (destructuring default 4000, line 28). -/
def resolvedMaxTokens (opts : GenOptions) : Nat :=
  opts.maxTokens.getD 4000

/-- Resolved `temperature` (destructuring default 0.7, line 29). -/
def resolvedTemperature (opts : GenOptions) : ℚ :=
  opts.temperature.getD ((7 : ℚ) / 10)

/-- Resolved `provider` (destructuring default "auto", line 31). -/
def resolvedProvider (opts : GenOptions) : String :=
  opts.provider.getD "auto"

/-- Whether the model string names Anthropic's family:
`model.includes('claude') || model.includes('anthropic')` (line 37). -/
def matchesFamilyA (model : String) : Bool :=
  jsIncludes model "claude" || jsIncludes model "anthropic"

/-- Whether the model string names OpenAI's family:
`model.includes('gpt') || model.includes('openai')` (line 39). -/
def matchesFamilyB (model : String) : Bool :=
  jsIncludes model "gpt" || jsIncludes model "openai"

/-- The `provider === 'auto'` branch of provider selection
(llmService.js lines 36-44). -/
def autoSelect (st : ServiceState) (model : String) : String :=
  if matchesFamilyA model then "anthropic"
  else if matchesFamilyB model then "openai"
  else if st.anthropicEnabled then "anthropic" else "openai"

/-- Provider selection (`useProvider`, llmService.js lines 34-44): an
explicit hint is used verbatim, `auto` inspects the model string. -/
def selectUseProvider (st : ServiceState) (provider model : String) : String :=
  if provider = "auto" then autoSelect st model else provider

/-- The uniform result returned by the dispatcher (spec `GenerationResult`):
`content`, the echoed `model`, opaque `usage`, and the `provider` that was
invoked (source field names, llmService.js lines 78-83 and 107-112). -/
structure GenerationResult where
  content : String
  model : String
  usage : Usage
  provider : String
  deriving DecidableEq

/-- The request object built by `generateWithAnthropic`
(llmService.js lines 68-76): destructured option values with their local
defaults, the system prompt as a top-level field, and a conversation array
holding only the user message. -/
def anthReqOf (prompt : String) (opts : GenOptions) : AnthropicReq :=
  ⟨opts.model.getD "claude-3-sonnet-20240229", opts.maxTokens.getD 4000,
    opts.temperature.getD ((7 : ℚ) / 10), opts.systemPrompt, [⟨"user", prompt⟩]⟩

/-- The request object built by `generateWithOpenAI`
(llmService.js lines 94-105): the system prompt is pushed as a leading
role-"system" message only when truthy (`if (systemPrompt)`, line 95), so an
empty-string system prompt is dropped exactly as in the source. -/
def openaiReqOf (prompt : String) (opts : GenOptions) : OpenAIReq :=
  ⟨opts.model.getD "gpt-4",
    (if jsTruthyStr opts.systemPrompt then
      [(⟨"system", opts.systemPrompt.getD ""⟩ : Message)] else []) ++ [⟨"user", prompt⟩],
    opts.maxTokens.getD 4000, opts.temperature.getD ((7 : ℚ) / 10)⟩

/-- Body of `generateWithAnthropic` (llmService.js lines 60-84), with its own
destructuring defaults.  Returns the result or raised error, paired with the
list of outbound backend calls made.  When the Anthropic client was never
initialized, the property access `this.anthropic.messages` raises a
TypeError before any call goes out. -/
def generateWithAnthropicT (st : ServiceState) (be : Backends) (prompt : String)
    (opts : GenOptions) : Except JsError GenerationResult × List BackendCall :=
  if st.anthropicEnabled = false then
    (.error (.typeError "Cannot read properties of undefined (reading 'messages')"), [])
  else
    let req := anthReqOf prompt opts
    match be.anthropicCall req with
    | .error e => (.error e, [.anthropic req])
    | .ok resp =>
      match resp.content with
      | [] =>
        (.error (.typeError "Cannot read properties of undefined (reading 'text')"),
          [.anthropic req])
      | block :: _ =>
        (.ok ⟨block.text, opts.model.getD "claude-3-sonnet-20240229", resp.usage, "anthropic"⟩,
          [.anthropic req])

/-- Body of `generateWithOpenAI` (llmService.js lines 86-113).  The system
prompt is pushed as a leading role-"system" message only when truthy
(`if (systemPrompt)`, line 95), so an empty-string system prompt is dropped
exactly as in the source. -/
def generateWithOpenAIT (st : ServiceState) (be : Backends) (prompt : String)
    (opts : GenOptions) : Except JsError GenerationResult × List BackendCall :=
  if st.openaiEnabled = false then
    (.error (.typeError "Cannot read properties of undefined (reading 'chat')"), [])
  else
    let req := openaiReqOf prompt opts
    match be.openaiCall req with
    | .error e => (.error e, [.openai req])
    | .ok resp =>
      match resp.choices with
      | [] =>
        (.error (.typeError "Cannot read properties of undefined (reading 'message')"),
          [.openai req])
      | choice :: _ =>
        (.ok ⟨choice.message.content, opts.model.getD "gpt-4", resp.usage, "openai"⟩,
          [.openai req])

/-- The options object `{model, maxTokens, temperature, systemPrompt}` that
`generateResponseWithProvider` passes to the backend-specific methods
(llmService.js lines 48 and 50): every field already resolved, so the inner
destructuring defaults never fire. -/
def dispatchOpts (st : ServiceState) (opts : GenOptions) : GenOptions :=
  ⟨some (resolvedModel st opts), some (resolvedMaxTokens opts),
    some (resolvedTemperature opts), opts.systemPrompt, none⟩

/-- The `try` block of `generateResponseWithProvider`
(llmService.js lines 46-53): dispatch on the selected provider, guarded by
client availability; otherwise throw the not-available error. -/
def dispatchTry (st : ServiceState) (be : Backends) (prompt : String)
    (opts : GenOptions) : Except JsError GenerationResult × List BackendCall :=
  let up := selectUseProvider st (resolvedProvider opts) (resolvedModel st opts)
  if up = "anthropic" ∧ st.anthropicEnabled then
    generateWithAnthropicT st be prompt (dispatchOpts st opts)
  else if up = "openai" ∧ st.openaiEnabled then
    generateWithOpenAIT st be prompt (dispatchOpts st opts)
  else
    (.error (.thrown ("Provider " ++ up ++ " not available or not configured")), [])

/-- The `catch` block of `generateResponseWithProvider`
(llmService.js lines 54-57): every error raised inside the try block is
re-thrown as a plain Error whose message wraps the original message. -/
def wrapCatch (r : Except JsError GenerationResult × List BackendCall) :
    Except JsError GenerationResult × List BackendCall :=
  match r.1 with
  | .ok v => (.ok v, r.2)
  | .error e => (.error (.thrown ("LLM generation failed: " ++ e.message)), r.2)

/-- `generateResponseWithProvider` (llmService.js lines 25-58), instrumented
with the list of outbound backend calls made. -/
def generateResponseWithProviderT (st : ServiceState) (be : Backends)
    (prompt : String) (opts : GenOptions) :
    Except JsError GenerationResult × List BackendCall :=
  wrapCatch (dispatchTry st be prompt opts)

/-- `generateResponseWithProvider` without the call trace. -/
def generateResponseWithProvider (st : ServiceState) (be : Backends)
    (prompt : String) (opts : GenOptions) : Except JsError GenerationResult :=
  (generateResponseWithProviderT st be prompt opts).1

/-- A backend oracle pair that always succeeds, returning content "ok" and
empty usage; used in concrete scenario theorems. -/
def beOk : Backends :=
  ⟨fun _ => .ok ⟨[⟨"ok"⟩], []⟩, fun _ => .ok ⟨[⟨⟨"ok"⟩⟩], []⟩⟩

/-- A backend oracle pair that always raises an SDK error with message
"boom"; used in concrete scenario theorems. -/
def beErr : Backends :=
  ⟨fun _ => .error (.typeError "boom"), fun _ => .error (.typeError "boom")⟩

/-- The options object with every property omitted. -/
def optsNone : GenOptions := ⟨none, none, none, none, none⟩

/-- Characterization of a successful `generateWithAnthropic` run: the result
carries provider "anthropic", echoes the resolved model, and exactly one
backend call went out, whose request fields are the resolved options with
the single user message. -/
theorem generateWithAnthropicT_ok {st : ServiceState} {be : Backends}
    {prompt : String} {opts : GenOptions} {r : GenerationResult}
    {tr : List BackendCall}
    (h : generateWithAnthropicT st be prompt opts = (.ok r, tr)) :
    r.provider = "anthropic" ∧ r.model = opts.model.getD "claude-3-sonnet-20240229" ∧
    ∃ req : AnthropicReq, tr = [.anthropic req] ∧ req.model = r.model ∧
      req.maxTokens = opts.maxTokens.getD 4000 ∧
      req.temperature = opts.temperature.getD ((7 : ℚ) / 10) ∧
      req.system = opts.systemPrompt ∧
      req.messages = [⟨"user", prompt⟩] := by
  simp only [generateWithAnthropicT] at h
  split at h
  · simp at h
  · split at h
    · simp at h
    · split at h
      · simp at h
      · simp only [Prod.mk.injEq, Except.ok.injEq] at h
        obtain ⟨hr, htr⟩ := h
        subst hr htr
        exact ⟨rfl, rfl, _, rfl, rfl, rfl, rfl, rfl, rfl⟩

/-- Characterization of a successful `generateWithOpenAI` run: the result
carries provider "openai", echoes the resolved model, and exactly one
backend call went out; its messages are the user message, preceded by a
system message exactly when the system prompt is truthy. -/
theorem generateWithOpenAIT_ok {st : ServiceState} {be : Backends}
    {prompt : String} {opts : GenOptions} {r : GenerationResult}
    {tr : List BackendCall}
    (h : generateWithOpenAIT st be prompt opts = (.ok r, tr)) :
    r.provider = "openai" ∧ r.model = opts.model.getD "gpt-4" ∧
    ∃ req : OpenAIReq, tr = [.openai req] ∧ req.model = r.model ∧
      req.maxTokens = opts.maxTokens.getD 4000 ∧
      req.temperature = opts.temperature.getD ((7 : ℚ) / 10) ∧
      req.messages =
        (if jsTruthyStr opts.systemPrompt then
          [(⟨"system", opts.systemPrompt.getD ""⟩ : Message)] else []) ++ [⟨"user", prompt⟩] := by
  simp only [generateWithOpenAIT] at h
  split at h
  · simp at h
  · split at h
    · simp at h
    · split at h
      · simp at h
      · simp only [Prod.mk.injEq, Except.ok.injEq] at h
        obtain ⟨hr, htr⟩ := h
        subst hr htr
        exact ⟨rfl, rfl, _, rfl, rfl, rfl, rfl, rfl⟩

/-- `generateWithAnthropic` makes no call or exactly one Anthropic call. -/
theorem generateWithAnthropicT_trace (st : ServiceState) (be : Backends)
    (prompt : String) (opts : GenOptions) :
    (generateWithAnthropicT st be prompt opts).2 = [] ∨
    ∃ req : AnthropicReq,
      (generateWithAnthropicT st be prompt opts).2 = [.anthropic req] := by
  simp only [generateWithAnthropicT]
  split
  · exact .inl rfl
  · split
    · exact .inr ⟨_, rfl⟩
    · split
      · exact .inr ⟨_, rfl⟩
      · exact .inr ⟨_, rfl⟩

/-- `generateWithOpenAI` makes no call or exactly one OpenAI call. -/
theorem generateWithOpenAIT_trace (st : ServiceState) (be : Backends)
    (prompt : String) (opts : GenOptions) :
    (generateWithOpenAIT st be prompt opts).2 = [] ∨
    ∃ req : OpenAIReq,
      (generateWithOpenAIT st be prompt opts).2 = [.openai req] := by
  simp only [generateWithOpenAIT]
  split
  · exact .inl rfl
  · split
    · exact .inr ⟨_, rfl⟩
    · split
      · exact .inr ⟨_, rfl⟩
      · exact .inr ⟨_, rfl⟩

/-- Claim C1: for every successful call to `generateResponseWithProvider`,
the result's `provider` field equals the backend actually invoked (the one
call recorded in the trace), and its `model` field equals the model string
actually sent to that backend, which is the resolved option value — the
process-wide default when the caller omitted `model` — never a hardcoded
literal. -/
theorem claim_C1_result_echoes_invoked_provider_and_model
    (st : ServiceState) (be : Backends) (prompt : String) (opts : GenOptions)
    (r : GenerationResult) (tr : List BackendCall)
    (h : generateResponseWithProviderT st be prompt opts = (.ok r, tr)) :
    r.model = resolvedModel st opts ∧
    ((∃ req : AnthropicReq,
        tr = [.anthropic req] ∧ r.provider = "anthropic" ∧ req.model = r.model) ∨
     (∃ req : OpenAIReq,
        tr = [.openai req] ∧ r.provider = "openai" ∧ req.model = r.model)) := by
  rcases hd : dispatchTry st be prompt opts with ⟨res, trace⟩
  rw [generateResponseWithProviderT, hd, wrapCatch] at h
  cases res with
  | error e => simp at h
  | ok v =>
    simp only [Prod.mk.injEq, Except.ok.injEq] at h
    obtain ⟨hv, htr⟩ := h
    subst hv htr
    rw [dispatchTry] at hd
    split at hd
    · obtain ⟨hp, hm, req, htr, hqm, _, _, _, _⟩ := generateWithAnthropicT_ok hd
      simp only [dispatchOpts, Option.getD_some] at hm
      exact ⟨hm, .inl ⟨req, htr, hp, hqm⟩⟩
    · split at hd
      · obtain ⟨hp, hm, req, htr, hqm, _, _, _⟩ := generateWithOpenAIT_ok hd
        simp only [dispatchOpts, Option.getD_some] at hm
        exact ⟨hm, .inr ⟨req, htr, hp, hqm⟩⟩
      · simp at hd

/-- Witness for claim C1 at a concrete input: Anthropic enabled, default
model "claude-x", all options omitted, oracle succeeding. -/
theorem claim_C1_witness :
    (⟨"ok", "claude-x", [], "anthropic"⟩ : GenerationResult).model =
      resolvedModel ⟨true, false, "claude-x"⟩ optsNone ∧
    ((∃ req : AnthropicReq,
        [BackendCall.anthropic
            ⟨"claude-x", 4000, (7 : ℚ) / 10, none, [⟨"user", "p"⟩]⟩] =
           [.anthropic req] ∧
        (⟨"ok", "claude-x", [], "anthropic"⟩ : GenerationResult).provider = "anthropic" ∧
        req.model = (⟨"ok", "claude-x", [], "anthropic"⟩ : GenerationResult).model) ∨
     (∃ req : OpenAIReq,
        [BackendCall.anthropic
            ⟨"claude-x", 4000, (7 : ℚ) / 10, none, [⟨"user", "p"⟩]⟩] =
           [.openai req] ∧
        (⟨"ok", "claude-x", [], "anthropic"⟩ : GenerationResult).provider = "openai" ∧
        req.model = (⟨"ok", "claude-x", [], "anthropic"⟩ : GenerationResult).model)) :=
  claim_C1_result_echoes_invoked_provider_and_model
    ⟨true, false, "claude-x"⟩ beOk "p" optsNone
    ⟨"ok", "claude-x", [], "anthropic"⟩
    [.anthropic ⟨"claude-x", 4000, (7 : ℚ) / 10, none, [⟨"user", "p"⟩]⟩]
    (by rfl)

/-- Claim C2: a request whose provider hint explicitly names a backend that
is disabled (no credential configured) fails with the provider-unavailable
error, regardless of every other request field, and no outbound backend
call is made before failing. -/
theorem claim_C2_explicit_hint_disabled_fails_without_call
    (st : ServiceState) (be : Backends) (prompt : String) (opts : GenOptions) :
    (opts.provider = some "anthropic" → st.anthropicEnabled = false →
      generateResponseWithProviderT st be prompt opts =
        (.error (.thrown
          "LLM generation failed: Provider anthropic not available or not configured"), [])) ∧
    (opts.provider = some "openai" → st.openaiEnabled = false →
      generateResponseWithProviderT st be prompt opts =
        (.error (.thrown
          "LLM generation failed: Provider openai not available or not configured"), [])) := by
  constructor
  · intro hp he
    have hup : selectUseProvider st (resolvedProvider opts) (resolvedModel st opts) =
        "anthropic" := by
      simp [selectUseProvider, resolvedProvider, hp]
    simp [generateResponseWithProviderT, dispatchTry, hup, he, wrapCatch, JsError.message]
  · intro hp he
    have hup : selectUseProvider st (resolvedProvider opts) (resolvedModel st opts) =
        "openai" := by
      simp [selectUseProvider, resolvedProvider, hp]
    simp [generateResponseWithProviderT, dispatchTry, hup, he, wrapCatch, JsError.message]

/-- Witness for claim C2: hint "anthropic" with Anthropic disabled and
OpenAI enabled fails with the wrapped not-available error and no call. -/
theorem claim_C2_witness :
    generateResponseWithProviderT ⟨false, true, "m"⟩ beOk "x"
        ⟨none, none, none, none, some "anthropic"⟩ =
      (.error (.thrown
        "LLM generation failed: Provider anthropic not available or not configured"), []) :=
  (claim_C2_explicit_hint_disabled_fails_without_call ⟨false, true, "m"⟩ beOk "x"
    ⟨none, none, none, none, some "anthropic"⟩).1 rfl rfl

/-- Counterexample for claim C3: with neither backend enabled there is no
distinct NoProviderConfigured error kind.  The error message varies with the
provider hint (first two conjuncts), and it is byte-for-byte the same error
produced in a genuine ProviderUnavailable situation where only Anthropic is
missing but OpenAI is configured (third conjunct). -/
theorem claim_C3_counterexample :
    generateResponseWithProviderT ⟨false, false, "mymodel"⟩ beOk "p" optsNone =
      (.error (.thrown
        "LLM generation failed: Provider openai not available or not configured"), []) ∧
    generateResponseWithProviderT ⟨false, false, "mymodel"⟩ beOk "p"
        ⟨none, none, none, none, some "anthropic"⟩ =
      (.error (.thrown
        "LLM generation failed: Provider anthropic not available or not configured"), []) ∧
    generateResponseWithProviderT ⟨false, true, "mymodel"⟩ beOk "p"
        ⟨none, none, none, none, some "anthropic"⟩ =
      (.error (.thrown
        "LLM generation failed: Provider anthropic not available or not configured"), []) :=
  ⟨rfl, rfl, rfl⟩

/-- Claim C3 as amended: if neither backend is enabled, every call fails and
makes no backend call, but the error is the provider-not-available error
naming whichever provider selection chose (hint- and model-dependent), the
same error kind used for ProviderUnavailable — not a distinct
NoProviderConfigured kind. -/
theorem claim_C3_amended_no_backend_always_fails_without_call
    (st : ServiceState) (be : Backends) (prompt : String) (opts : GenOptions)
    (ha : st.anthropicEnabled = false) (ho : st.openaiEnabled = false) :
    generateResponseWithProviderT st be prompt opts =
      (.error (.thrown ("LLM generation failed: " ++
        ("Provider " ++ selectUseProvider st (resolvedProvider opts) (resolvedModel st opts) ++
          " not available or not configured"))), []) := by
  simp [generateResponseWithProviderT, dispatchTry, ha, ho, wrapCatch, JsError.message]

/-- Witness for the amended claim C3 at a concrete no-credential state. -/
theorem claim_C3_amended_witness :
    generateResponseWithProviderT ⟨false, false, "mymodel"⟩ beOk "p" optsNone =
      (.error (.thrown ("LLM generation failed: " ++
        ("Provider " ++
          selectUseProvider ⟨false, false, "mymodel"⟩ (resolvedProvider optsNone)
            (resolvedModel ⟨false, false, "mymodel"⟩ optsNone) ++
          " not available or not configured"))), []) :=
  claim_C3_amended_no_backend_always_fails_without_call
    ⟨false, false, "mymodel"⟩ beOk "p" optsNone rfl rfl

/-- Reference backend selection for auto mode, written from the spec's
words (spec section 4.1, rules 2-3): provider A if the model matches A's
family, else provider B if it matches B's family, else A when A is enabled,
otherwise B.  Used only to compare against the source's selection logic. -/
def specSelectAuto (st : ServiceState) (model : String) : String :=
  if matchesFamilyA model then "anthropic"
  else if matchesFamilyB model then "openai"
  else if st.anthropicEnabled then "anthropic"
  else "openai"

/-- Claim C4: in auto mode the source's provider selection coincides with
the spec's reference selection function, and in particular a model matching
neither family with both backends enabled selects Anthropic. -/
theorem claim_C4_auto_selection_matches_reference
    (st : ServiceState) (model : String) :
    selectUseProvider st "auto" model = specSelectAuto st model ∧
    (matchesFamilyA model = false → matchesFamilyB model = false →
      st.anthropicEnabled = true → st.openaiEnabled = true →
      selectUseProvider st "auto" model = "anthropic") := by
  constructor
  · simp [selectUseProvider, autoSelect, specSelectAuto]
  · intro hA hB hEn _
    simp [selectUseProvider, autoSelect, hA, hB, hEn]

/-- Witness for claim C4: model "mistral-7b" matches neither family; with
both backends enabled the selection agrees with the reference and picks
Anthropic. -/
theorem claim_C4_witness :
    selectUseProvider ⟨true, true, "d"⟩ "auto" "mistral-7b" =
      specSelectAuto ⟨true, true, "d"⟩ "mistral-7b" ∧
    selectUseProvider ⟨true, true, "d"⟩ "auto" "mistral-7b" = "anthropic" :=
  ⟨(claim_C4_auto_selection_matches_reference ⟨true, true, "d"⟩ "mistral-7b").1,
   (claim_C4_auto_selection_matches_reference ⟨true, true, "d"⟩ "mistral-7b").2
     rfl rfl rfl rfl⟩

/-- The catch-wrapper does not change the call trace. -/
theorem wrapCatch_snd (r : Except JsError GenerationResult × List BackendCall) :
    (wrapCatch r).2 = r.2 := by
  unfold wrapCatch
  split <;> rfl

/-- The dispatcher's call trace is the try block's call trace. -/
theorem generateT_snd (st : ServiceState) (be : Backends) (prompt : String)
    (opts : GenOptions) :
    (generateResponseWithProviderT st be prompt opts).2 =
      (dispatchTry st be prompt opts).2 := by
  rw [generateResponseWithProviderT, wrapCatch_snd]

/-- `generateWithAnthropic` either makes no call, or exactly the one call
with the request built from the resolved options. -/
theorem generateWithAnthropicT_trace_shape (st : ServiceState) (be : Backends)
    (prompt : String) (opts : GenOptions) :
    (generateWithAnthropicT st be prompt opts).2 = [] ∨
    (generateWithAnthropicT st be prompt opts).2 =
      [.anthropic (anthReqOf prompt opts)] := by
  simp only [generateWithAnthropicT]
  split
  · exact .inl rfl
  · split
    · exact .inr rfl
    · split
      · exact .inr rfl
      · exact .inr rfl

/-- `generateWithOpenAI` either makes no call, or exactly the one call with
the request built from the resolved options. -/
theorem generateWithOpenAIT_trace_shape (st : ServiceState) (be : Backends)
    (prompt : String) (opts : GenOptions) :
    (generateWithOpenAIT st be prompt opts).2 = [] ∨
    (generateWithOpenAIT st be prompt opts).2 =
      [.openai (openaiReqOf prompt opts)] := by
  simp only [generateWithOpenAIT]
  split
  · exact .inl rfl
  · split
    · exact .inr rfl
    · split
      · exact .inr rfl
      · exact .inr rfl

/-- Every Anthropic request that actually went out has the system prompt as
the top-level `system` field, the single user message as its conversation,
and the resolved option values. -/
theorem generateWithAnthropicT_req_shape {st : ServiceState} {be : Backends}
    {prompt : String} {opts : GenOptions} {req : AnthropicReq}
    (h : (generateWithAnthropicT st be prompt opts).2 = [.anthropic req]) :
    req.system = opts.systemPrompt ∧ req.messages = [⟨"user", prompt⟩] ∧
    req.model = opts.model.getD "claude-3-sonnet-20240229" ∧
    req.maxTokens = opts.maxTokens.getD 4000 ∧
    req.temperature = opts.temperature.getD ((7 : ℚ) / 10) := by
  rcases generateWithAnthropicT_trace_shape st be prompt opts with h0 | h0
  · rw [h0] at h
    simp at h
  · rw [h0] at h
    injection h with h1 _
    injection h1 with h2
    subst h2
    exact ⟨rfl, rfl, rfl, rfl, rfl⟩

/-- Every OpenAI request that actually went out carries the user message,
preceded by a system message exactly when the system prompt is truthy, and
the resolved option values. -/
theorem generateWithOpenAIT_req_shape {st : ServiceState} {be : Backends}
    {prompt : String} {opts : GenOptions} {req : OpenAIReq}
    (h : (generateWithOpenAIT st be prompt opts).2 = [.openai req]) :
    req.messages =
      (if jsTruthyStr opts.systemPrompt then
        [(⟨"system", opts.systemPrompt.getD ""⟩ : Message)] else []) ++ [⟨"user", prompt⟩] ∧
    req.model = opts.model.getD "gpt-4" ∧
    req.maxTokens = opts.maxTokens.getD 4000 ∧
    req.temperature = opts.temperature.getD ((7 : ℚ) / 10) := by
  rcases generateWithOpenAIT_trace_shape st be prompt opts with h0 | h0
  · rw [h0] at h
    simp at h
  · rw [h0] at h
    injection h with h1 _
    injection h1 with h2
    subst h2
    exact ⟨rfl, rfl, rfl, rfl⟩

/-- Counterexample for claim C5: a request with provider hint "openai" and a
present-but-empty system prompt.  The claim says the messages sent should be
the system-role message followed by the user message, but the source's
truthiness check drops the empty system prompt, so backend B receives only
the user message. -/
theorem claim_C5_counterexample :
    (generateResponseWithProviderT ⟨false, true, "d"⟩ beOk "hello"
        ⟨some "gpt-4", none, none, some "", some "openai"⟩).2 =
      [.openai ⟨"gpt-4", [⟨"user", "hello"⟩], 4000, (7 : ℚ) / 10⟩] := rfl

/-- Claim C5 as amended: when provider A is invoked the system prompt is the
top-level `system` field and the conversation is exactly the user message;
when provider B is invoked the messages are the system-role message followed
by the user message exactly when the system prompt is truthy (present and
non-empty), and just the user message otherwise. -/
theorem claim_C5_amended_system_prompt_placement
    (st : ServiceState) (be : Backends) (prompt : String) (opts : GenOptions) :
    (∀ req : AnthropicReq,
      (generateResponseWithProviderT st be prompt opts).2 = [.anthropic req] →
      req.system = opts.systemPrompt ∧ req.messages = [⟨"user", prompt⟩]) ∧
    (∀ req : OpenAIReq,
      (generateResponseWithProviderT st be prompt opts).2 = [.openai req] →
      req.messages =
        (if jsTruthyStr opts.systemPrompt then
          [(⟨"system", opts.systemPrompt.getD ""⟩ : Message)] else []) ++ [⟨"user", prompt⟩]) := by
  constructor
  · intro req h
    rw [generateT_snd, dispatchTry] at h
    split at h
    · have hs := generateWithAnthropicT_req_shape h
      exact ⟨hs.1, hs.2.1⟩
    · split at h
      · rcases generateWithOpenAIT_trace_shape st be prompt _ with h0 | h0 <;>
          rw [h0] at h <;> simp at h
      · simp at h
  · intro req h
    rw [generateT_snd, dispatchTry] at h
    split at h
    · rcases generateWithAnthropicT_trace_shape st be prompt _ with h0 | h0 <;>
        rw [h0] at h <;> simp at h
    · split at h
      · exact (generateWithOpenAIT_req_shape h).1
      · simp at h

/-- Witness for the amended claim C5: a non-empty system prompt on provider
B yields the system message followed by the user message. -/
theorem claim_C5_amended_witness :
    (⟨"gpt-4", [⟨"system", "be brief"⟩, ⟨"user", "hello"⟩], 4000,
        (7 : ℚ) / 10⟩ : OpenAIReq).messages =
      (if jsTruthyStr (some "be brief") then
        [(⟨"system", (some "be brief").getD ""⟩ : Message)] else []) ++ [⟨"user", "hello"⟩] :=
  (claim_C5_amended_system_prompt_placement ⟨false, true, "d"⟩ beOk "hello"
      ⟨some "gpt-4", none, none, some "be brief", some "openai"⟩).2
    ⟨"gpt-4", [⟨"system", "be brief"⟩, ⟨"user", "hello"⟩], 4000, (7 : ℚ) / 10⟩ rfl

/-- Claim C6: every invocation makes at most one outbound backend call (no
retry); every failure surfaces as the single wrapped error kind — a plain
thrown error whose message starts with the dispatcher's wrapper text, never
the raw backend exception; and when the selected, enabled backend's call
raises an error, the dispatcher fails with exactly the wrap of that error's
message after the single call. -/
theorem claim_C6_upstream_wrapped_single_attempt
    (st : ServiceState) (be : Backends) (prompt : String) (opts : GenOptions) :
    (generateResponseWithProviderT st be prompt opts).2.length ≤ 1 ∧
    (∀ e, (generateResponseWithProviderT st be prompt opts).1 = .error e →
      ∃ m, e = .thrown ("LLM generation failed: " ++ m)) ∧
    (∀ e, st.anthropicEnabled = true →
      selectUseProvider st (resolvedProvider opts) (resolvedModel st opts) = "anthropic" →
      be.anthropicCall (anthReqOf prompt (dispatchOpts st opts)) = .error e →
      generateResponseWithProviderT st be prompt opts =
        (.error (.thrown ("LLM generation failed: " ++ e.message)),
          [.anthropic (anthReqOf prompt (dispatchOpts st opts))])) ∧
    (∀ e, st.openaiEnabled = true →
      selectUseProvider st (resolvedProvider opts) (resolvedModel st opts) = "openai" →
      be.openaiCall (openaiReqOf prompt (dispatchOpts st opts)) = .error e →
      generateResponseWithProviderT st be prompt opts =
        (.error (.thrown ("LLM generation failed: " ++ e.message)),
          [.openai (openaiReqOf prompt (dispatchOpts st opts))])) := by
  refine ⟨?_, ?_, ?_, ?_⟩
  · rw [generateT_snd, dispatchTry]
    split
    · rcases generateWithAnthropicT_trace_shape st be prompt (dispatchOpts st opts) with h0 | h0 <;>
        rw [h0] <;> simp
    · split
      · rcases generateWithOpenAIT_trace_shape st be prompt (dispatchOpts st opts) with h0 | h0 <;>
          rw [h0] <;> simp
      · simp
  · intro e h
    rw [generateResponseWithProviderT, wrapCatch] at h
    split at h
    · simp at h
    · simp only [Except.error.injEq] at h
      exact ⟨_, h.symm⟩
  · intro e he hsel hor
    rw [generateResponseWithProviderT, dispatchTry]
    simp only [hsel, he]
    rw [if_pos (by simp)]
    rw [generateWithAnthropicT]
    simp only [he]
    rw [if_neg (by simp)]
    simp only [hor, wrapCatch]
  · intro e he hsel hor
    rw [generateResponseWithProviderT, dispatchTry]
    simp only [hsel, he]
    rw [if_neg (by simp), if_pos (by simp)]
    rw [generateWithOpenAIT]
    simp only [he]
    rw [if_neg (by simp)]
    simp only [hor, wrapCatch]

/-- Witness for claim C6: the backend raising a TypeError "boom" makes the
dispatcher fail with the wrapped message after its single Anthropic call. -/
theorem claim_C6_witness :
    generateResponseWithProviderT ⟨true, false, "claude-x"⟩ beErr "p" optsNone =
      (.error (.thrown ("LLM generation failed: " ++ (JsError.typeError "boom").message)),
        [.anthropic (anthReqOf "p" (dispatchOpts ⟨true, false, "claude-x"⟩ optsNone))]) :=
  (claim_C6_upstream_wrapped_single_attempt ⟨true, false, "claude-x"⟩ beErr "p"
      optsNone).2.2.1 (.typeError "boom") rfl rfl rfl

/-- When the Anthropic client exists, `generateWithAnthropic` always sends
exactly its one request, whatever the oracle outcome. -/
theorem generateWithAnthropicT_trace_enabled {st : ServiceState} (be : Backends)
    (prompt : String) (opts : GenOptions) (he : st.anthropicEnabled = true) :
    (generateWithAnthropicT st be prompt opts).2 = [.anthropic (anthReqOf prompt opts)] := by
  rw [generateWithAnthropicT]
  simp only [he]
  rw [if_neg (by simp)]
  split
  · rfl
  · split <;> rfl

/-- When the OpenAI client exists, `generateWithOpenAI` always sends
exactly its one request, whatever the oracle outcome. -/
theorem generateWithOpenAIT_trace_enabled {st : ServiceState} (be : Backends)
    (prompt : String) (opts : GenOptions) (he : st.openaiEnabled = true) :
    (generateWithOpenAIT st be prompt opts).2 = [.openai (openaiReqOf prompt opts)] := by
  rw [generateWithOpenAIT]
  simp only [he]
  rw [if_neg (by simp)]
  split
  · rfl
  · split <;> rfl

/-- Counterexample for claim C7: an empty prompt does not fail with any
InvalidRequest error — the dispatcher has no prompt validation.  With
Anthropic enabled the empty prompt is forwarded to the backend as the user
message and the call succeeds. -/
theorem claim_C7_counterexample :
    generateResponseWithProviderT ⟨true, false, "claude-3-sonnet-20240229"⟩ beOk "" optsNone =
      (.ok ⟨"ok", "claude-3-sonnet-20240229", [], "anthropic"⟩,
        [.anthropic ⟨"claude-3-sonnet-20240229", 4000, (7 : ℚ) / 10, none,
          [⟨"user", ""⟩]⟩]) := rfl

/-- Claim C7 as amended: the dispatcher performs no prompt validation.  An
empty prompt is forwarded verbatim to whichever enabled backend selection
picked, as the content of the user message. -/
theorem claim_C7_amended_empty_prompt_forwarded
    (st : ServiceState) (be : Backends) (opts : GenOptions) :
    (st.anthropicEnabled = true →
      selectUseProvider st (resolvedProvider opts) (resolvedModel st opts) = "anthropic" →
      (generateResponseWithProviderT st be "" opts).2 =
        [.anthropic (anthReqOf "" (dispatchOpts st opts))] ∧
      (anthReqOf "" (dispatchOpts st opts)).messages = [⟨"user", ""⟩]) ∧
    (st.openaiEnabled = true →
      selectUseProvider st (resolvedProvider opts) (resolvedModel st opts) = "openai" →
      (generateResponseWithProviderT st be "" opts).2 =
        [.openai (openaiReqOf "" (dispatchOpts st opts))] ∧
      ∃ pre, (openaiReqOf "" (dispatchOpts st opts)).messages = pre ++ [⟨"user", ""⟩]) := by
  constructor
  · intro he hsel
    refine ⟨?_, rfl⟩
    rw [generateT_snd, dispatchTry]
    simp only [hsel, he]
    rw [if_pos (by simp)]
    exact generateWithAnthropicT_trace_enabled be "" (dispatchOpts st opts) he
  · intro he hsel
    refine ⟨?_, _, rfl⟩
    rw [generateT_snd, dispatchTry]
    simp only [hsel, he]
    rw [if_neg (by simp), if_pos (by simp)]
    exact generateWithOpenAIT_trace_enabled be "" (dispatchOpts st opts) he

/-- Witness for the amended claim C7 at a concrete enabled-Anthropic state. -/
theorem claim_C7_amended_witness :
    (generateResponseWithProviderT ⟨true, false, "claude-3-sonnet-20240229"⟩ beOk "" optsNone).2 =
      [.anthropic (anthReqOf ""
        (dispatchOpts ⟨true, false, "claude-3-sonnet-20240229"⟩ optsNone))] ∧
    (anthReqOf "" (dispatchOpts ⟨true, false, "claude-3-sonnet-20240229"⟩ optsNone)).messages =
      [⟨"user", ""⟩] :=
  (claim_C7_amended_empty_prompt_forwarded ⟨true, false, "claude-3-sonnet-20240229"⟩
    beOk optsNone).1 rfl rfl

/-- Claim C8: omitted-field defaults are maxTokens 4000, temperature 0.7 and
the process-wide default model string, and defaulting is idempotent — a call
passing 4000 and 0.7 explicitly behaves identically (same result and same
backend invocation parameters) to one omitting both fields. -/
theorem claim_C8_defaults_idempotent
    (st : ServiceState) (be : Backends) (prompt : String) (opts : GenOptions)
    (hmt : opts.maxTokens = none) (ht : opts.temperature = none) :
    generateResponseWithProviderT st be prompt opts =
      generateResponseWithProviderT st be prompt
        ⟨opts.model, some 4000, some ((7 : ℚ) / 10), opts.systemPrompt, opts.provider⟩ ∧
    (opts.model = none →
      anthReqOf prompt (dispatchOpts st opts) =
        ⟨st.defaultModel, 4000, (7 : ℚ) / 10, opts.systemPrompt, [⟨"user", prompt⟩]⟩ ∧
      openaiReqOf prompt (dispatchOpts st opts) =
        ⟨st.defaultModel,
          (if jsTruthyStr opts.systemPrompt then
            [(⟨"system", opts.systemPrompt.getD ""⟩ : Message)] else []) ++ [⟨"user", prompt⟩],
          4000, (7 : ℚ) / 10⟩) := by
  have h3 : dispatchOpts st opts =
      dispatchOpts st ⟨opts.model, some 4000, some ((7 : ℚ) / 10), opts.systemPrompt,
        opts.provider⟩ := by
    simp [dispatchOpts, resolvedModel, resolvedMaxTokens, resolvedTemperature, hmt, ht]
  constructor
  · rw [generateResponseWithProviderT, generateResponseWithProviderT, dispatchTry,
      dispatchTry, h3]
    rfl
  · intro hm
    constructor
    · simp [anthReqOf, dispatchOpts, resolvedModel, resolvedMaxTokens, resolvedTemperature,
        hm, hmt, ht]
    · simp [openaiReqOf, dispatchOpts, resolvedModel, resolvedMaxTokens, resolvedTemperature,
        hm, hmt, ht]

/-- Witness for claim C8 at a concrete input: omitted vs explicit defaults
give the same run, and the all-omitted request resolves to 4000 / 0.7 and
the default model "dm". -/
theorem claim_C8_witness :
    (generateResponseWithProviderT ⟨true, true, "dm"⟩ beOk "hi"
        ⟨none, none, none, none, some "anthropic"⟩ =
      generateResponseWithProviderT ⟨true, true, "dm"⟩ beOk "hi"
        ⟨none, some 4000, some ((7 : ℚ) / 10), none, some "anthropic"⟩) ∧
    anthReqOf "hi" (dispatchOpts ⟨true, true, "dm"⟩ ⟨none, none, none, none, some "anthropic"⟩) =
      ⟨"dm", 4000, (7 : ℚ) / 10, none, [⟨"user", "hi"⟩]⟩ :=
  ⟨(claim_C8_defaults_idempotent ⟨true, true, "dm"⟩ beOk "hi"
      ⟨none, none, none, none, some "anthropic"⟩ rfl rfl).1,
   ((claim_C8_defaults_idempotent ⟨true, true, "dm"⟩ beOk "hi"
      ⟨none, none, none, none, some "anthropic"⟩ rfl rfl).2 rfl).1⟩

/-- Counterexample for claim C9: the symmetric clause fails when the model
matches both family substrings.  "anthropic-gpt" contains provider B's
substring "gpt" and B (OpenAI) is disabled, yet generate does not fail: the
A-family check runs first, A is enabled, and the call succeeds via A. -/
theorem claim_C9_counterexample :
    matchesFamilyB "anthropic-gpt" = true ∧
    generateResponseWithProviderT ⟨true, false, "d"⟩ beOk "x"
        ⟨some "anthropic-gpt", none, none, none, none⟩ =
      (.ok ⟨"ok", "anthropic-gpt", [], "anthropic"⟩,
        [.anthropic ⟨"anthropic-gpt", 4000, (7 : ℚ) / 10, none, [⟨"user", "x"⟩]⟩]) :=
  ⟨rfl, rfl⟩

/-- Claim C9 as amended: in auto mode the family-substring match does not
consult enablement.  A model matching A's family with A disabled fails with
no backend call even when B is enabled; a model matching B's family — and
not A's, since the A check has precedence — with B disabled fails with no
backend call even when A is enabled. -/
theorem claim_C9_amended_no_fallback_on_family_match
    (st : ServiceState) (be : Backends) (prompt : String) (opts : GenOptions)
    (hauto : resolvedProvider opts = "auto") :
    (matchesFamilyA (resolvedModel st opts) = true → st.anthropicEnabled = false →
      generateResponseWithProviderT st be prompt opts =
        (.error (.thrown
          "LLM generation failed: Provider anthropic not available or not configured"), [])) ∧
    (matchesFamilyA (resolvedModel st opts) = false →
      matchesFamilyB (resolvedModel st opts) = true → st.openaiEnabled = false →
      generateResponseWithProviderT st be prompt opts =
        (.error (.thrown
          "LLM generation failed: Provider openai not available or not configured"), [])) := by
  constructor
  · intro hA he
    have hup : selectUseProvider st (resolvedProvider opts) (resolvedModel st opts) =
        "anthropic" := by
      simp [selectUseProvider, hauto, autoSelect, hA]
    simp [generateResponseWithProviderT, dispatchTry, hup, he, wrapCatch, JsError.message]
  · intro hA hB he
    have hup : selectUseProvider st (resolvedProvider opts) (resolvedModel st opts) =
        "openai" := by
      simp [selectUseProvider, hauto, autoSelect, hA, hB]
    simp [generateResponseWithProviderT, dispatchTry, hup, he, wrapCatch, JsError.message]

/-- Witness for the amended claim C9: model "claude-3" with Anthropic
disabled and OpenAI enabled fails without falling back to OpenAI. -/
theorem claim_C9_amended_witness :
    generateResponseWithProviderT ⟨false, true, "d"⟩ beOk "x"
        ⟨some "claude-3", none, none, none, none⟩ =
      (.error (.thrown
        "LLM generation failed: Provider anthropic not available or not configured"), []) :=
  (claim_C9_amended_no_fallback_on_family_match ⟨false, true, "d"⟩ beOk "x"
    ⟨some "claude-3", none, none, none, none⟩ rfl).1 rfl rfl

/-- The `systemPrompts` object literal in `analyzeCode`
(llmService.js lines 127-134), as an association list of own properties. -/
def systemPrompts : List (String × String) :=
  [("security", "You are a security expert. Analyze the provided code for security vulnerabilities, potential exploits, and security best practices."),
   ("performance", "You are a performance optimization expert. Analyze the code for performance issues, bottlenecks, and optimization opportunities."),
   ("quality", "You are a code quality expert. Review the code for maintainability, readability, design patterns, and best practices."),
   ("testing", "You are a testing expert. Analyze the code and suggest comprehensive test cases, edge cases, and testing strategies."),
   ("general", "You are a senior software engineer. Provide a comprehensive code review covering security, performance, quality, and testing aspects."),
   ("comprehensive", "You are a senior software engineer and security expert. Provide a detailed analysis covering security vulnerabilities, performance issues, code quality, maintainability, and testing recommendations.")]

/-- JS `a || b` on a possibly-missing string: falls back on undefined and on
the empty string. -/
def jsOrStr (v : Option String) (fallback : String) : String :=
  match v with
  | some s => if s = "" then fallback else s
  | none => fallback

/-- The prompt string template built in `analyzeCode`
(llmService.js lines 136-142). -/
def analyzeCodePrompt (code : String) : String :=
  "Please analyze the following code:\n\n```\n" ++ code ++
    "\n```\n\nProvide detailed analysis and recommendations."

/-- Identifiers in scope inside the body of `analyzeCode`: its two
parameters, its two locals, and `this`.  There is no parameter or local
named `options` (llmService.js line 126 declares only `code` and
`analysisType`). -/
def analyzeCodeScopeVars : List String :=
  ["code", "analysisType", "systemPrompts", "prompt", "this"]

/-- Evaluating an identifier in a scope: an unbound name raises a
ReferenceError, as the JS runtime does. -/
def lookupVar (scope : List String) (x : String) : Except JsError Unit :=
  if x ∈ scope then .ok () else .error (.referenceError x)

/-- `analyzeCode` (llmService.js lines 126-149).  The options object passed
to `generateResponseWithProvider` spreads a variable `options` that is not
in scope, so building it raises a ReferenceError before the dispatcher is
ever entered. -/
def analyzeCodeT (st : ServiceState) (be : Backends) (code analysisType : String) :
    Except JsError GenerationResult × List BackendCall :=
  let systemPrompt := jsOrStr (systemPrompts.lookup analysisType)
    "You are a senior software engineer. Provide a comprehensive code review covering security, performance, quality, and testing aspects."
  match lookupVar analyzeCodeScopeVars "options" with
  | .error e => (.error e, [])
  | .ok _ =>
    generateResponseWithProviderT st be (analyzeCodePrompt code)
      ⟨none, some 3000, none, some systemPrompt, none⟩

/-- Claim C10: every call to `analyzeCode` raises a ReferenceError for the
unbound identifier `options`, regardless of its arguments and of the
backend configuration, and no backend call is ever made through it. -/
theorem claim_C10_analyzeCode_always_reference_error
    (st : ServiceState) (be : Backends) (code analysisType : String) :
    analyzeCodeT st be code analysisType =
      (.error (.referenceError "options"), []) := rfl
